import Mathlib

/-!
Verification of the OceanGuard coastal-monitoring backend (`src/app.py`).

Floats are modelled as exact rationals (`ℚ`).  `math.sin` is modelled as an
abstract function parameter `sinq : ℚ → ℚ`, constrained where needed by the
mathematical bound `|sin x| ≤ 1`.  Python's `round(x, 2)` (banker's rounding,
half to even) is modelled exactly on rationals by `round2`.  The SQLite store
is modelled as a list of samples in ascending insertion (id) order.  The
current UTC clock enters the forecast only through the calendar date attached
to each projected day; it is modelled as an integer day number `today`.
-/

namespace OceanGuard

/-- Severity levels produced by the classifier (`"Normal"`, `"Warning"`,
`"Danger"` strings in the Python source). -/
inductive Status where
  | Normal
  | Warning
  | Danger
deriving DecidableEq, Repr

/-- The `priority` dict in `compute_status`:
`{"Normal": 0, "Warning": 1, "Danger": 2}`. -/
def priority : Status → ℕ
  | .Normal => 0
  | .Warning => 1
  | .Danger => 2

/-- First `if` chain of `compute_status` in `app.py`: the sea-level status. -/
def sea_status_of (sea_level : ℚ) : Status :=
  if sea_level < 120 then .Normal
  else if sea_level ≤ 180 then .Warning
  else .Danger

/-- Second `if` chain of `compute_status` in `app.py`: the wind-speed status. -/
def wind_status_of (wind_speed : ℚ) : Status :=
  if wind_speed < 10 then .Normal
  else if wind_speed ≤ 18 then .Warning
  else .Danger

/-- `max(sea_status, wind_status, key=lambda s: priority[s])`: Python's
two-argument `max` returns the second argument only when its key is strictly
greater, otherwise the first. -/
def overall_of (a b : Status) : Status :=
  if priority a < priority b then b else a

/-- `compute_status(sea_level, wind_speed)` from `app.py`: the triple
`(sea_status, wind_status, overall)`. -/
def compute_status (sea_level wind_speed : ℚ) : Status × Status × Status :=
  (sea_status_of sea_level, wind_status_of wind_speed,
    overall_of (sea_status_of sea_level) (wind_status_of wind_speed))

/-- `_clamp(value, lo, hi) = max(lo, min(hi, value))` from `app.py`. -/
def _clamp (value lo hi : ℚ) : ℚ :=
  max lo (min hi value)

/-- Python's `round` on rationals (round half to even, i.e. banker's
rounding) to the nearest integer. -/
def roundHalfEven (q : ℚ) : ℤ :=
  if q - ⌊q⌋ < 1/2 then ⌊q⌋
  else if 1/2 < q - ⌊q⌋ then ⌊q⌋ + 1
  else if ⌊q⌋ % 2 = 0 then ⌊q⌋ else ⌊q⌋ + 1

/-- `round(x, 2)`: round to two decimal places, half to even. -/
def round2 (q : ℚ) : ℚ :=
  (roundHalfEven (q * 100) : ℚ) / 100

/-- The `_prev` dict: previous generator values, one per metric. -/
structure GenState where
  sea_level : ℚ
  wind_speed : ℚ
deriving DecidableEq, Repr

/-- `generate_sensor_values()` from `app.py`, with the two
`random.uniform` draws made explicit inputs `delta_sea ∈ [-8,8]`,
`delta_wind ∈ [-3,3]`.  Returns the updated `_prev` state together with the
returned (rounded) pair.  Note the source stores the *unrounded* clamped
values in `_prev` and returns the values rounded to 2 decimals. -/
def generate_sensor_values (st : GenState) (delta_sea delta_wind : ℚ) :
    GenState × ℚ × ℚ :=
  let new_sea := _clamp (st.sea_level + delta_sea) 50 250
  let new_wind := _clamp (st.wind_speed + delta_wind) 1 25
  (⟨new_sea, new_wind⟩, round2 new_sea, round2 new_wind)

/-- A stored sample's two metric values `(sea_level, wind_speed)`.  The
store is a list of these in ascending id order. -/
abbrev Sample := ℚ × ℚ

/-- `post_sensor_data` from `app.py`: reject when either field is missing,
otherwise append the values to the store exactly as given (no clamping). -/
def post_sensor_data (store : List Sample) (sea wind : Option ℚ) :
    Except String (List Sample) :=
  match sea, wind with
  | some s, some w => .ok (store ++ [(s, w)])
  | _, _ => .error "sea_level and wind_speed required"

/-- The dummy-mode toggle `api_toggle_dummy`: flips the flag and returns
`(new flag state, response payload)`; the response reports the post-toggle
state. -/
def api_toggle_dummy (flag : Bool) : Bool × Bool :=
  (!flag, !flag)

/-- `api_dummy_status`: reads and reports the current flag. -/
def api_dummy_status (flag : Bool) : Bool :=
  flag

/-- The runtime `settings` dict. -/
structure Settings where
  data_interval : ℤ
  chart_points : ℤ
  prediction_days : ℤ
deriving DecidableEq, Repr

/-- A partial settings-update payload: `none` fields are absent from the
POSTed JSON. -/
structure SettingsPayload where
  data_interval : Option ℤ
  chart_points : Option ℤ
  prediction_days : Option ℤ
deriving DecidableEq, Repr

/-- `api_update_settings` from `app.py`: each present field is clamped to
its bounds and written; absent fields are untouched; the full resulting
settings dict is returned. -/
def api_update_settings (s : Settings) (p : SettingsPayload) : Settings :=
  let s1 := match p.data_interval with
    | some v => { s with data_interval := max 1 (min 60 v) }
    | none => s
  let s2 := match p.chart_points with
    | some v => { s1 with chart_points := max 10 (min 500 v) }
    | none => s1
  let s3 := match p.prediction_days with
    | some v => { s2 with prediction_days := max 1 (min 30 v) }
    | none => s2
  s3

/-- `sx = sum(range(n))` in `_linear_regression`. -/
def rangeSum (n : ℕ) : ℚ :=
  ((List.range n).map (fun i : ℕ => (i : ℚ))).sum

/-- `sxx = sum(i * i for i in range(n))` in `_linear_regression`. -/
def rangeSumSq (n : ℕ) : ℚ :=
  ((List.range n).map (fun i : ℕ => (i : ℚ) * i)).sum

/-- `denom = n * sxx - sx * sx` in `_linear_regression`. -/
def reg_denom (n : ℕ) : ℚ :=
  n * rangeSumSq n - rangeSum n * rangeSum n

/-- `_linear_regression(ys)` from `app.py`: least-squares `(slope,
intercept)` over indices `0..n-1`, with the degenerate fallbacks of the
source. -/
def _linear_regression (ys : List ℚ) : ℚ × ℚ :=
  let n := ys.length
  if n < 2 then (0, ys.headD 0)
  else
    let sx := rangeSum n
    let sy := ys.sum
    let sxy := ((ys.enum).map (fun p : ℕ × ℚ => (p.1 : ℚ) * p.2)).sum
    let denom := reg_denom n
    if denom = 0 then (0, sy / n)
    else
      let slope := (n * sxy - sx * sy) / denom
      let intercept := (sy - slope * sx) / n
      (slope, intercept)

/-- One element of the JSON array returned by `api_prediction`.  The
calendar date `now + timedelta(days=day)` is modelled as the integer day
number `today + day`. -/
structure Prediction where
  day : ℕ
  date : ℤ
  sea_level : ℚ
  wind_speed : ℚ
  sea_status : Status
  wind_status : Status
  overall_status : Status
deriving DecidableEq, Repr

/-- `SELECT ... ORDER BY id DESC LIMIT 200` followed by
`rows = list(reversed(rows))`: the most recent 200 samples in ascending
order. -/
def recent_200 (store : List Sample) : List Sample :=
  ((store.reverse).take 200).reverse

/-- The body of the `for day in range(1, days + 1)` loop of
`api_prediction`: project both metrics to `future_idx = n + day *
steps_per_day`, add the sinusoidal perturbation, round to 2 decimals, clamp
to the physical bounds, classify, and attach the calendar date. -/
def forecast_row (sea_int sea_slope wind_int wind_slope : ℚ) (n : ℕ)
    (today : ℤ) (sinq : ℚ → ℚ) (day : ℕ) : Prediction :=
  let steps_per_day : ℚ := (24 * 3600) / 3
  let future_idx : ℚ := (n : ℚ) + (day : ℚ) * steps_per_day
  let pred_sea := sea_int + sea_slope * future_idx
      + 15 * sinq ((day : ℚ) * (9/10))
  let pred_wind := wind_int + wind_slope * future_idx
      + 3 * sinq ((day : ℚ) * (11/10) + 1/2)
  let sea_clamped := max 50 (min 250 (round2 pred_sea))
  let wind_clamped := max 1 (min 25 (round2 pred_wind))
  { day := day
    date := today + day
    sea_level := sea_clamped
    wind_speed := wind_clamped
    sea_status := (compute_status sea_clamped wind_clamped).1
    wind_status := (compute_status sea_clamped wind_clamped).2.1
    overall_status := (compute_status sea_clamped wind_clamped).2.2 }

/-- `api_prediction` from `app.py`: `none` models the
`{"error": "not enough data for prediction"}` response when fewer than two
samples exist; otherwise the ordered list of `days` daily projections. -/
def api_prediction (store : List Sample) (days : ℕ) (today : ℤ)
    (sinq : ℚ → ℚ) : Option (List Prediction) :=
  let rows := recent_200 store
  if rows.length < 2 then none
  else
    let sea_vals := rows.map Prod.fst
    let wind_vals := rows.map Prod.snd
    let sea_reg := _linear_regression sea_vals
    let wind_reg := _linear_regression wind_vals
    let n := sea_vals.length
    some ((List.range days).map (fun d =>
      forecast_row sea_reg.2 sea_reg.1 wind_reg.2 wind_reg.1 n today sinq
        (d + 1)))

/-- The `/api/prediction` route: reads `prediction_days` from the settings
(and nothing else from them) and runs the forecast. -/
def api_prediction_route (st : Settings) (store : List Sample) (today : ℤ)
    (sinq : ℚ → ℚ) : Option (List Prediction) :=
  api_prediction store st.prediction_days.toNat today sinq

/-! ### Helper lemmas -/

lemma le_roundHalfEven (m : ℤ) (q : ℚ) (h : (m : ℚ) ≤ q) :
    m ≤ roundHalfEven q := by
  have hf : m ≤ ⌊q⌋ := Int.le_floor.mpr h
  unfold roundHalfEven
  split_ifs <;> omega

lemma roundHalfEven_le (m : ℤ) (q : ℚ) (h : q ≤ m) :
    roundHalfEven q ≤ m := by
  have hf : ⌊q⌋ ≤ m := by
    have h1 : (⌊q⌋ : ℚ) ≤ (m : ℚ) := le_trans (Int.floor_le q) h
    exact_mod_cast h1
  unfold roundHalfEven
  split_ifs with h1 h2 h3
  · omega
  all_goals {
    have hq : (⌊q⌋ : ℚ) + 1/2 ≤ q := by
      have := not_lt.mp h1
      linarith
    have hlt : (⌊q⌋ : ℚ) < (m : ℚ) := by linarith
    have : ⌊q⌋ < m := by exact_mod_cast hlt
    omega }

lemma le_round2 (m : ℤ) (q : ℚ) (h : (m : ℚ) ≤ q) : (m : ℚ) ≤ round2 q := by
  have h100 : ((100 * m : ℤ) : ℚ) ≤ q * 100 := by push_cast; linarith
  have hr := le_roundHalfEven (100 * m) (q * 100) h100
  rw [round2, le_div_iff₀ (by norm_num : (0:ℚ) < 100)]
  have hc : ((100 * m : ℤ) : ℚ) ≤ (roundHalfEven (q * 100) : ℚ) := by
    exact_mod_cast hr
  push_cast at hc ⊢
  linarith

lemma round2_le (m : ℤ) (q : ℚ) (h : q ≤ (m : ℚ)) : round2 q ≤ (m : ℚ) := by
  have h100 : q * 100 ≤ ((100 * m : ℤ) : ℚ) := by push_cast; linarith
  have hr := roundHalfEven_le (100 * m) (q * 100) h100
  rw [round2, div_le_iff₀ (by norm_num : (0:ℚ) < 100)]
  have hc : (roundHalfEven (q * 100) : ℚ) ≤ ((100 * m : ℤ) : ℚ) := by
    exact_mod_cast hr
  push_cast at hc ⊢
  linarith

lemma _clamp_le (v lo hi : ℚ) (h : lo ≤ hi) : _clamp v lo hi ≤ hi :=
  max_le h (min_le_left _ _)

lemma le_clamp (v lo hi : ℚ) : lo ≤ _clamp v lo hi :=
  le_max_left _ _

lemma rangeSum_eq (n : ℕ) : rangeSum n = (n : ℚ) * ((n : ℚ) - 1) / 2 := by
  induction n with
  | zero => simp [rangeSum]
  | succ k ih =>
    rw [rangeSum, List.range_succ, List.map_append, List.sum_append]
    simp only [List.map_cons, List.map_nil, List.sum_cons, List.sum_nil]
    rw [← rangeSum, ih]
    push_cast
    ring

lemma rangeSumSq_eq (n : ℕ) :
    rangeSumSq n = (n : ℚ) * ((n : ℚ) - 1) * (2 * (n : ℚ) - 1) / 6 := by
  induction n with
  | zero => simp [rangeSumSq]
  | succ k ih =>
    rw [rangeSumSq, List.range_succ, List.map_append, List.sum_append]
    simp only [List.map_cons, List.map_nil, List.sum_cons, List.sum_nil]
    rw [← rangeSumSq, ih]
    push_cast
    ring

lemma reg_denom_eq (n : ℕ) :
    reg_denom n = (n : ℚ) ^ 2 * ((n : ℚ) - 1) * ((n : ℚ) + 1) / 12 := by
  rw [reg_denom, rangeSum_eq, rangeSumSq_eq]
  ring

lemma reg_denom_pos (n : ℕ) (h : 2 ≤ n) : 0 < reg_denom n := by
  rw [reg_denom_eq]
  have h2 : (2 : ℚ) ≤ (n : ℚ) := by exact_mod_cast h
  have hsq : (0 : ℚ) < (n : ℚ) ^ 2 := pow_pos (by linarith) 2
  have hm : (0 : ℚ) < (n : ℚ) ^ 2 * ((n : ℚ) - 1) * ((n : ℚ) + 1) :=
    mul_pos (mul_pos hsq (by linarith)) (by linarith)
  exact div_pos hm (by norm_num)

lemma recent_200_length (store : List Sample) :
    (recent_200 store).length = min 200 store.length := by
  simp [recent_200]

lemma forecast_row_day (a b c e : ℚ) (n : ℕ) (today : ℤ) (sinq : ℚ → ℚ)
    (day : ℕ) : (forecast_row a b c e n today sinq day).day = day := rfl

lemma forecast_row_bounds (a b c e : ℚ) (n : ℕ) (today : ℤ) (sinq : ℚ → ℚ)
    (day : ℕ) :
    50 ≤ (forecast_row a b c e n today sinq day).sea_level ∧
    (forecast_row a b c e n today sinq day).sea_level ≤ 250 ∧
    1 ≤ (forecast_row a b c e n today sinq day).wind_speed ∧
    (forecast_row a b c e n today sinq day).wind_speed ≤ 25 :=
  ⟨le_max_left _ _, max_le (by norm_num) (min_le_left _ _),
    le_max_left _ _, max_le (by norm_num) (min_le_left _ _)⟩

lemma lr_100_110 : _linear_regression [100, 110] = (10, 100) := by
  norm_num [_linear_regression, rangeSum, rangeSumSq, reg_denom,
    List.enum, List.enumFrom, List.range_succ]

lemma lr_5_6 : _linear_regression [5, 6] = (1, 5) := by
  norm_num [_linear_regression, rangeSum, rangeSumSq, reg_denom,
    List.enum, List.enumFrom, List.range_succ]

lemma api_prediction_two_samples (today : ℤ) (sinq : ℚ → ℚ) :
    api_prediction [(100, 5), (110, 6)] 1 today sinq =
      some [forecast_row 100 10 5 1 2 today sinq 1] := by
  have hr : recent_200 [(100, 5), (110, 6)] = [(100, 5), (110, 6)] := rfl
  rw [api_prediction, hr]
  norm_num [lr_100_110, lr_5_6, List.range_succ]

lemma api_prediction_eq (store : List Sample) (days : ℕ) (today : ℤ)
    (sinq : ℚ → ℚ) (h : ¬((recent_200 store).length < 2)) :
    api_prediction store days today sinq =
      some ((List.range days).map (fun d =>
        forecast_row (_linear_regression ((recent_200 store).map Prod.fst)).2
          (_linear_regression ((recent_200 store).map Prod.fst)).1
          (_linear_regression ((recent_200 store).map Prod.snd)).2
          (_linear_regression ((recent_200 store).map Prod.snd)).1
          ((recent_200 store).map Prod.fst).length today sinq (d + 1))) := by
  simp only [api_prediction, if_neg h]

/-! ### Claims -/

/-- Claim C3: classification thresholds.  For every sea level the sea
status is Normal iff the value is below 120, Warning iff it lies in
[120, 180], Danger iff it exceeds 180; for every wind speed the wind status
is Normal iff below 10, Warning iff in [10, 18], Danger iff above 18. -/
theorem compute_status_thresholds (sea wind : ℚ) :
    ((compute_status sea wind).1 = .Normal ↔ sea < 120) ∧
    ((compute_status sea wind).1 = .Warning ↔ 120 ≤ sea ∧ sea ≤ 180) ∧
    ((compute_status sea wind).1 = .Danger ↔ 180 < sea) ∧
    ((compute_status sea wind).2.1 = .Normal ↔ wind < 10) ∧
    ((compute_status sea wind).2.1 = .Warning ↔ 10 ≤ wind ∧ wind ≤ 18) ∧
    ((compute_status sea wind).2.1 = .Danger ↔ 18 < wind) := by
  unfold compute_status sea_status_of wind_status_of
  split_ifs with h1 h2 h3 h4 <;>
    simp_all <;>
    first
      | linarith
      | (constructor <;> linarith)

/-- Claim C4: the overall status is the maximum of the two per-metric
statuses under the severity order Normal < Warning < Danger; equal inputs
give equal triples; the overall status is never less severe than either
individual status; and when both per-metric statuses coincide the overall
status is that shared level. -/
theorem compute_status_overall_max (sea wind : ℚ) :
    (∀ s2 w2, sea = s2 → wind = w2 →
      compute_status sea wind = compute_status s2 w2) ∧
    priority (compute_status sea wind).1 ≤
      priority (compute_status sea wind).2.2 ∧
    priority (compute_status sea wind).2.1 ≤
      priority (compute_status sea wind).2.2 ∧
    priority (compute_status sea wind).2.2 =
      max (priority (compute_status sea wind).1)
        (priority (compute_status sea wind).2.1) ∧
    ((compute_status sea wind).1 = (compute_status sea wind).2.1 →
      (compute_status sea wind).2.2 = (compute_status sea wind).1) := by
  have H : ∀ a b : Status,
      priority a ≤ priority (overall_of a b) ∧
      priority b ≤ priority (overall_of a b) ∧
      priority (overall_of a b) = max (priority a) (priority b) ∧
      (a = b → overall_of a b = a) := by
    intro a b
    cases a <;> cases b <;> decide
  refine ⟨fun s2 w2 hs hw => by rw [hs, hw], ?_, ?_, ?_, ?_⟩
  · exact (H (sea_status_of sea) (wind_status_of wind)).1
  · exact (H (sea_status_of sea) (wind_status_of wind)).2.1
  · exact (H (sea_status_of sea) (wind_status_of wind)).2.2.1
  · exact (H (sea_status_of sea) (wind_status_of wind)).2.2.2

/-- Witness for claim C4 at sea = 130, wind = 5. -/
theorem compute_status_overall_max_witness :
    priority (compute_status 130 5).1 ≤ priority (compute_status 130 5).2.2 :=
  (compute_status_overall_max 130 5).2.1

/-- Claim C9: toggling dummy mode twice restores the original flag; each
toggle's response reports the post-toggle state; and a status query after a
toggle reports exactly the last toggle's result. -/
theorem toggle_dummy_involution (b : Bool) :
    (api_toggle_dummy (api_toggle_dummy b).1).1 = b ∧
    (api_toggle_dummy b).2 = (api_toggle_dummy b).1 ∧
    api_dummy_status (api_toggle_dummy b).1 = (api_toggle_dummy b).2 := by
  cases b <;> exact ⟨rfl, rfl, rfl⟩

/-- Claim C10: for every input of length at least 2 the regression
denominator `n·Σx² − (Σx)²` is strictly positive (so the degenerate
`denom == 0` fallback is unreachable and both divisions are well-defined);
for a single sample the function returns slope 0 with intercept `ys[0]`,
and for the empty list slope 0 and intercept 0, without any division. -/
theorem linear_regression_denominator_safe (ys : List ℚ) :
    (2 ≤ ys.length → 0 < reg_denom ys.length) ∧
    (ys.length = 1 → _linear_regression ys = (0, ys.headD 0)) ∧
    (ys = [] → _linear_regression ys = (0, 0)) := by
  refine ⟨fun h => reg_denom_pos ys.length h, fun h => ?_, fun h => ?_⟩
  · simp [_linear_regression, h]
  · subst h
    rfl

/-- Witness for claim C10 at the two-element input `[100, 110]`. -/
theorem linear_regression_denominator_safe_witness :
    0 < reg_denom (([100, 110] : List ℚ)).length :=
  (linear_regression_denominator_safe [100, 110]).1 (by decide)

/-- Claim C6: a settings update clamps each present field to its bounds
(`data_interval` to [1,60], `chart_points` to [10,500], `prediction_days`
to [1,30]), leaves absent fields unchanged, and returns the full resulting
settings; in particular `{data_interval: 0}` yields 1, `{chart_points:
1000}` yields 500, and the empty update returns the settings unchanged. -/
theorem settings_update_clamps_and_frames (s : Settings) (p : SettingsPayload) :
    (∀ v, p.data_interval = some v →
      (api_update_settings s p).data_interval = max 1 (min 60 v)) ∧
    (p.data_interval = none →
      (api_update_settings s p).data_interval = s.data_interval) ∧
    (∀ v, p.chart_points = some v →
      (api_update_settings s p).chart_points = max 10 (min 500 v)) ∧
    (p.chart_points = none →
      (api_update_settings s p).chart_points = s.chart_points) ∧
    (∀ v, p.prediction_days = some v →
      (api_update_settings s p).prediction_days = max 1 (min 30 v)) ∧
    (p.prediction_days = none →
      (api_update_settings s p).prediction_days = s.prediction_days) ∧
    api_update_settings s ⟨some 0, none, none⟩ =
      { s with data_interval := 1 } ∧
    api_update_settings s ⟨none, some 1000, none⟩ =
      { s with chart_points := 500 } ∧
    api_update_settings s ⟨none, none, none⟩ = s := by
  obtain ⟨di, cp, pd⟩ := p
  refine ⟨?_, ?_, ?_, ?_, ?_, ?_, ?_, ?_, ?_⟩ <;>
    first
      | (intro v hv <;> cases di <;> cases cp <;> cases pd <;>
          simp_all [api_update_settings])
      | (intro hv <;> cases di <;> cases cp <;> cases pd <;>
          simp_all [api_update_settings])
      | (simp [api_update_settings])

/-- Witness for claim C6 at the default settings and the payload
`{data_interval: 0}`. -/
theorem settings_update_clamps_and_frames_witness :
    (api_update_settings ⟨3, 50, 7⟩ ⟨some 0, none, none⟩).data_interval =
      max 1 (min 60 0) :=
  (settings_update_clamps_and_frames ⟨3, 50, 7⟩ ⟨some 0, none, none⟩).1 0 rfl

/-- Claim C8 counterexample: with previous values (130, 10) and deltas
(0.123, 0), the value stored into the generator state (130.123, the
unrounded clamp result) differs from the value returned by the call
(130.12, the rounded one), refuting "after each call the stored previous
values equal the pair returned by that call". -/
theorem generator_state_result_mismatch :
    (generate_sensor_values ⟨130, 10⟩ (123/1000) 0).1.sea_level ≠
      (generate_sensor_values ⟨130, 10⟩ (123/1000) 0).2.1 := by
  norm_num [generate_sensor_values, _clamp, round2, roundHalfEven,
    min_def, max_def]

/-- Claim C8 (amended): each call clamps the random step per metric,
stores the clamped but *unrounded* values into the generator state, and
returns the clamped values rounded to 2 decimal places; the next call's
random walk starts from the stored unrounded values, not from the rounded
pair that was returned. -/
theorem generator_state_update (st : GenState) (s w u v : ℚ) :
    (generate_sensor_values st s w).1 =
      ⟨_clamp (st.sea_level + s) 50 250, _clamp (st.wind_speed + w) 1 25⟩ ∧
    (generate_sensor_values st s w).2.1 =
      round2 (_clamp (st.sea_level + s) 50 250) ∧
    (generate_sensor_values st s w).2.2 =
      round2 (_clamp (st.wind_speed + w) 1 25) ∧
    (generate_sensor_values (generate_sensor_values st s w).1 u v).1.sea_level =
      _clamp (_clamp (st.sea_level + s) 50 250 + u) 50 250 ∧
    (generate_sensor_values (generate_sensor_values st s w).1 u v).1.wind_speed =
      _clamp (_clamp (st.wind_speed + w) 1 25 + v) 1 25 :=
  ⟨rfl, rfl, rfl, rfl, rfl⟩

/-- Claim C5: generated samples are clamped into `sea_level ∈ [50,250]`,
`wind_speed ∈ [1,25]` for any deltas drawn from `[-8,8]` × `[-3,3]`; every
forecast projection is clamped into the same bounds before output; and an
externally POSTed sample is appended to the store exactly as given, with no
clamping. -/
theorem bounds_invariant (st : GenState) (s w : ℚ)
    (h1 : -8 ≤ s) (h2 : s ≤ 8) (h3 : -3 ≤ w) (h4 : w ≤ 3) :
    (50 ≤ (generate_sensor_values st s w).2.1 ∧
      (generate_sensor_values st s w).2.1 ≤ 250 ∧
      1 ≤ (generate_sensor_values st s w).2.2 ∧
      (generate_sensor_values st s w).2.2 ≤ 25) ∧
    (∀ store days today sinq ps,
      api_prediction store days today sinq = some ps →
      ∀ p ∈ ps, 50 ≤ p.sea_level ∧ p.sea_level ≤ 250 ∧
        1 ≤ p.wind_speed ∧ p.wind_speed ≤ 25) ∧
    (∀ store (sea wind : ℚ),
      post_sensor_data store (some sea) (some wind) =
        .ok (store ++ [(sea, wind)])) := by
  refine ⟨⟨?_, ?_, ?_, ?_⟩, ?_, fun store sea wind => rfl⟩
  · have hlo := le_clamp (st.sea_level + s) 50 250
    exact_mod_cast le_round2 50 _ (by exact_mod_cast hlo)
  · have hhi := _clamp_le (st.sea_level + s) 50 250 (by norm_num)
    exact_mod_cast round2_le 250 _ (by exact_mod_cast hhi)
  · have hlo := le_clamp (st.wind_speed + w) 1 25
    exact_mod_cast le_round2 1 _ (by exact_mod_cast hlo)
  · have hhi := _clamp_le (st.wind_speed + w) 1 25 (by norm_num)
    exact_mod_cast round2_le 25 _ (by exact_mod_cast hhi)
  · intro store days today sinq ps hps p hp
    rw [api_prediction] at hps
    by_cases hlen : (recent_200 store).length < 2
    · simp [hlen] at hps
    · simp only [hlen, if_neg, if_false] at hps
      rw [← Option.some.inj hps] at hp
      obtain ⟨d, hd, rfl⟩ := List.mem_map.mp hp
      exact forecast_row_bounds _ _ _ _ _ _ _ _

/-- Witness for claim C5 at state (130, 10) and deltas (0, 0). -/
theorem bounds_invariant_witness :
    50 ≤ (generate_sensor_values ⟨130, 10⟩ 0 0).2.1 :=
  (bounds_invariant ⟨130, 10⟩ 0 0 (by norm_num) (by norm_num) (by norm_num)
    (by norm_num)).1.1

/-- Claim C2: with at least 2 stored samples the forecast returns exactly
`days` daily projections with day numbers 1..days in ascending order; with
fewer than 2 samples it returns the benign InsufficientData signal (`none`,
the "not enough data for prediction" result) and no projections. -/
theorem forecast_contract (store : List Sample) (days : ℕ) (today : ℤ)
    (sinq : ℚ → ℚ) :
    (2 ≤ store.length →
      ∃ ps, api_prediction store days today sinq = some ps ∧
        ps.length = days ∧
        ps.map Prediction.day = (List.range days).map (fun d => d + 1)) ∧
    (store.length < 2 → api_prediction store days today sinq = none) := by
  constructor
  · intro h
    have hlen : ¬((recent_200 store).length < 2) := by
      rw [recent_200_length]
      omega
    refine ⟨_, api_prediction_eq store days today sinq hlen, by simp, ?_⟩
    rw [List.map_map]
    rfl
  · intro h
    have hlen : (recent_200 store).length < 2 := by
      rw [recent_200_length]
      omega
    simp [api_prediction, hlen]

/-- Witness for claim C2 on the two-sample store with a 2-day horizon. -/
theorem forecast_contract_witness :
    ∃ ps, api_prediction [((100:ℚ), (5:ℚ)), (110, 6)] 2 0 (fun _ => (0:ℚ)) =
        some ps ∧
      ps.length = 2 ∧
      ps.map Prediction.day = (List.range 2).map (fun d => d + 1) :=
  (forecast_contract [(100, 5), (110, 6)] 2 0 (fun _ => (0:ℚ))).1 (by decide)

/-- Claim C7 counterexample: the forecast output embeds the calendar date
derived from the current clock, so two invocations on the same stored
window and horizon but on different UTC dates differ — the output is not
unconditionally byte-identical across two runs. -/
theorem forecast_output_depends_on_clock :
    api_prediction [(100, 5), (110, 6)] 1 0 (fun _ => (0:ℚ)) ≠
      api_prediction [(100, 5), (110, 6)] 1 1 (fun _ => (0:ℚ)) := by
  rw [api_prediction_two_samples, api_prediction_two_samples]
  intro h
  have h1 := Option.some.inj h
  injection h1 with h2 h3
  have h4 := congrArg Prediction.date h2
  norm_num [forecast_row] at h4

/-- Claim C7 (amended): for a fixed sample window, a fixed horizon and a
fixed current date, two forecast invocations with no intervening ingests
yield identical output — the forecast involves no randomness: its output is
a function of the stored window, the horizon, the current date and the sine
function alone. -/
theorem forecast_deterministic (r1 r2 : List Sample) (days : ℕ) (today : ℤ)
    (sinq : ℚ → ℚ) (h : r1 = r2) :
    api_prediction r1 days today sinq = api_prediction r2 days today sinq := by
  rw [h]

/-- Witness for claim C7 on the two-sample store. -/
theorem forecast_deterministic_witness :
    api_prediction [((100:ℚ), (5:ℚ)), (110, 6)] 1 0 (fun _ => (0:ℚ)) =
      api_prediction [((100:ℚ), (5:ℚ)), (110, 6)] 1 0 (fun _ => (0:ℚ)) :=
  forecast_deterministic [(100, 5), (110, 6)] [(100, 5), (110, 6)] 1 0
    (fun _ => (0:ℚ)) rfl

/-- Claim C1: end-to-end 1-day forecast on the store holding exactly
(100, 5) and (110, 6): steps-per-day is the fixed 86400/3 = 28800
(independent of the `data_interval` setting, which is quantified over),
`future_index = 2 + 1·28800 = 28802`, the sea fit is slope 10 and
intercept 100, the raw sea projection `100 + 10·28802 = 288120` clamps to
250, and the projected sea status is Danger regardless of the wind value
and of the bounded sine perturbation. -/
theorem end_to_end_forecast (di cp today : ℤ) (sinq : ℚ → ℚ)
    (hs : ∀ x, |sinq x| ≤ 1) :
    ((24 * 3600 : ℚ) / 3 = 28800) ∧
    _linear_regression [100, 110] = (10, 100) ∧
    ((2 : ℚ) + 1 * 28800 = 28802) ∧
    ((100 : ℚ) + 10 * 28802 = 288120) ∧
    ∃ p : Prediction,
      api_prediction_route ⟨di, cp, 1⟩ [(100, 5), (110, 6)] today sinq =
        some [p] ∧
      p.day = 1 ∧ p.sea_level = 250 ∧ p.sea_status = Status.Danger := by
  refine ⟨by norm_num, lr_100_110, by norm_num, by norm_num, ?_⟩
  have hroute : api_prediction_route ⟨di, cp, 1⟩ [(100, 5), (110, 6)] today
      sinq = some [forecast_row 100 10 5 1 2 today sinq 1] := by
    rw [api_prediction_route]
    exact api_prediction_two_samples today sinq
  have hseaeq : (forecast_row 100 10 5 1 2 today sinq 1).sea_level =
      max 50 (min 250 (round2 (100 + 10 * (((2:ℕ) : ℚ)
        + ((1:ℕ) : ℚ) * ((24 * 3600) / 3))
        + 15 * sinq (((1:ℕ) : ℚ) * (9/10))))) := rfl
  have hb := (abs_le.mp (hs (((1:ℕ) : ℚ) * (9/10)))).1
  have hin : (250 : ℚ) ≤ 100 + 10 * (((2:ℕ) : ℚ)
      + ((1:ℕ) : ℚ) * ((24 * 3600) / 3))
      + 15 * sinq (((1:ℕ) : ℚ) * (9/10)) := by
    push_cast
    linarith
  have hge : (250 : ℚ) ≤ round2 (100 + 10 * (((2:ℕ) : ℚ)
      + ((1:ℕ) : ℚ) * ((24 * 3600) / 3))
      + 15 * sinq (((1:ℕ) : ℚ) * (9/10))) := by
    exact_mod_cast le_round2 250 _ (by exact_mod_cast hin)
  have hsea250 : (forecast_row 100 10 5 1 2 today sinq 1).sea_level = 250 := by
    rw [hseaeq, min_eq_left hge]
    norm_num
  refine ⟨forecast_row 100 10 5 1 2 today sinq 1, hroute, rfl, hsea250, ?_⟩
  have hstat : (forecast_row 100 10 5 1 2 today sinq 1).sea_status =
      sea_status_of ((forecast_row 100 10 5 1 2 today sinq 1).sea_level) :=
    rfl
  rw [hstat, hsea250]
  norm_num [sea_status_of]

/-- Witness for claim C1 with the zero sine function, `data_interval` 0,
`chart_points` 0 and day number 0 for today. -/
theorem end_to_end_forecast_witness :
    ((24 * 3600 : ℚ) / 3 = 28800) ∧
    _linear_regression [100, 110] = (10, 100) ∧
    ((2 : ℚ) + 1 * 28800 = 28802) ∧
    ((100 : ℚ) + 10 * 28802 = 288120) ∧
    ∃ p : Prediction,
      api_prediction_route ⟨0, 0, 1⟩ [(100, 5), (110, 6)] 0 (fun _ => (0:ℚ)) =
        some [p] ∧
      p.day = 1 ∧ p.sea_level = 250 ∧ p.sea_status = Status.Danger :=
  end_to_end_forecast 0 0 0 (fun _ => (0:ℚ)) (by intro x; simp)

end OceanGuard
